import Mathlib

/-!
Verification of the attempt-planning and quality-validation engine of the
YouTube download tool (`tools/youtube-downloader/youtube_downloader.py`).

The Python source is shallowly embedded below.  Pure helpers are translated
directly; environment-variable reads are modelled by an explicit `Env`
record passed where the source calls `os.getenv`; `SystemExit` raising
functions become `Except String` results; the filesystem is modelled as the
list of paths present in the output directory; the `yt-dlp` backend is an
abstract function from (format selector, attempt) to a backend result.
-/

namespace YoutubeDownloader

/-- Environment variables read by the tool, passed explicitly. -/
structure Env where
  yt_target_quality : Option String
  yt_min_height : Option String
  yt_quality_policy : Option String
  yt_cookies_from_browser : Option String

def DEFAULT_TARGET_QUALITY : Int := 720

def MIN_TARGET_QUALITY : Int := 144

def MAX_TARGET_QUALITY : Int := 4320

def DEFAULT_QUALITY_POLICY : String := "strict"

def DEFAULT_COOKIES_BROWSER : String := "chrome"

def COOKIE_BROWSER_FALLBACKS : List String := ["safari", "firefox"]

/-- Model of Python's `str.strip()`: drop whitespace from both ends.
Written over the character-list model of `String` so that it evaluates by
kernel reduction (Lean's own `String.trim` is position-based and does
not). -/
def py_strip (s : String) : String :=
  String.mk (((s.data.dropWhile Char.isWhitespace).reverse.dropWhile Char.isWhitespace).reverse)

/-- Model of Python's `str.lower()` on ASCII text, over the character-list
model of `String`. -/
def py_lower (s : String) : String :=
  String.mk (s.data.map Char.toLower)

/-- Whether `pre` is a leading segment of `l` (Python `str.startswith`). -/
def leading_match : List Char → List Char → Bool
  | [], _ => true
  | _ :: _, [] => false
  | p :: ps, c :: cs => (p == c) && leading_match ps cs

/-- Value of a nonempty all-digit character list, `none` otherwise;
the numeric core of Python's `int(str)`. -/
def digits_val (l : List Char) : Option Nat :=
  if l.isEmpty then none
  else if l.all Char.isDigit then
    some (l.foldl (fun acc c => acc * 10 + (c.toNat - 48)) 0)
  else none

/-- Model of Python's `int(value)` on a string: surrounding whitespace is
ignored, an optional sign precedes a nonempty run of decimal digits;
anything else raises `ValueError`, modelled as `none`. -/
def pyInt (s : String) : Option Int :=
  match (py_strip s).data with
  | '-' :: rest => (digits_val rest).map (fun n => -(n : Int))
  | '+' :: rest => (digits_val rest).map (fun n => (n : Int))
  | cs => (digits_val cs).map (fun n => (n : Int))

/-- `clean_error_message` from the source: strip, drop a leading
`ERROR:` tag. -/
def clean_error_message (message : String) : String :=
  let msg := py_strip message
  if leading_match ("ERROR:").data msg.data then py_strip (String.mk (msg.data.drop 6)) else msg

/-- The retryable marker list of `is_retryable_download_error`. -/
def retryable_markers : List String :=
  ["requested format is not available",
   "only images are available",
   "challenge solving failed",
   "this video is drm protected",
   "no video formats found",
   "http error 403",
   "cookiesfrombrowser",
   "cookie"]

/-- `is_retryable_download_error` from the source: lowercase the message and
test each marker for substring containment (Python `marker in lower`). -/
def is_retryable_download_error (message : String) : Bool :=
  let lower := py_lower message
  retryable_markers.any (fun marker => decide (marker.data <:+: lower.data))

/-- `parse_target_quality` from the source.  `value = None` or blank yields
the default; otherwise the string must parse as an integer inside
`[MIN_TARGET_QUALITY, MAX_TARGET_QUALITY]`.  `SystemExit` becomes
`Except.error`. -/
def parse_target_quality (value : Option String) (label : String) : Except String Int :=
  match value with
  | none => Except.ok DEFAULT_TARGET_QUALITY
  | some s =>
    if py_strip s = "" then Except.ok DEFAULT_TARGET_QUALITY
    else
      match pyInt s with
      | none => Except.error (s!"Invalid {label}={s}: expected integer.")
      | some parsed =>
        if parsed < MIN_TARGET_QUALITY then
          Except.error (s!"{label} must be >= {MIN_TARGET_QUALITY}.")
        else if parsed > MAX_TARGET_QUALITY then
          Except.error (s!"{label} cannot be greater than {MAX_TARGET_QUALITY}.")
        else Except.ok parsed

/-- `normalize_target_quality` from the source. -/
def normalize_target_quality (value : Int) (label : String) : Except String Int :=
  if value < MIN_TARGET_QUALITY then
    Except.error (s!"{label} must be >= {MIN_TARGET_QUALITY}.")
  else if value > MAX_TARGET_QUALITY then
    Except.error (s!"{label} cannot be greater than {MAX_TARGET_QUALITY}.")
  else Except.ok value

/-- `parse_min_height`: backward-compatible alias for the legacy
environment variable. -/
def parse_min_height (value : Option String) : Except String Int :=
  parse_target_quality value ("YT_MIN_HEIGHT")

/-- `normalize_min_height`: backward-compatible alias for the legacy CLI
option. -/
def normalize_min_height (value : Int) : Except String Int :=
  normalize_target_quality value ("min-height")

/-- Python's `a or b` on an optional string: `a` when it is a non-empty
string, else `b`. -/
def py_or (value : Option String) (default : String) : String :=
  match value with
  | some s => if s = "" then default else s
  | none => default

/-- `resolve_quality_policy` from the source:
`raw = cli_value or os.getenv("YT_QUALITY_POLICY") or DEFAULT_QUALITY_POLICY`,
then strip + lowercase and require membership in `{strict, best_effort}`. -/
def resolve_quality_policy (env : Env) (cli_value : Option String) : Except String String :=
  let raw := py_or cli_value (py_or env.yt_quality_policy DEFAULT_QUALITY_POLICY)
  let value := py_lower (py_strip raw)
  if value = "strict" ∨ value = "best_effort" then Except.ok value
  else Except.error ("quality policy must be strict or best_effort")

/-- `resolve_target_quality` from the source: CLI target, then legacy CLI
alias, then `YT_TARGET_QUALITY` (when set and non-blank), then
`YT_MIN_HEIGHT`, then the default. -/
def resolve_target_quality (env : Env) (cli_value : Option Int) (min_height : Option Int) :
    Except String Int :=
  match cli_value with
  | some v => normalize_target_quality v ("target-quality")
  | none =>
    match min_height with
    | some v => normalize_min_height v
    | none =>
      match env.yt_target_quality with
      | some s =>
        if s ≠ "" ∧ py_strip s ≠ "" then parse_target_quality (some s) ("YT_TARGET_QUALITY")
        else parse_min_height env.yt_min_height
      | none => parse_min_height env.yt_min_height

/-- `resolve_effective_clients` from the source.  A missing or empty list
(Python falsiness of `player_clients`) yields `[None]`; otherwise entries
are stripped, blanks dropped, and an all-blank list is a fatal error. -/
def resolve_effective_clients (player_clients : Option (List String)) :
    Except String (List (Option String)) :=
  match player_clients with
  | none => Except.ok [none]
  | some l =>
    if l = [] then Except.ok [none]
    else
      let cleaned := l.filterMap (fun c => if py_strip c = "" then none else some (py_strip c))
      if cleaned = [] then Except.error ("player clients list cannot be empty")
      else Except.ok (cleaned.map (fun c => some c))

/-- `client_label` from the source: Python `client if client else "auto"`. -/
def client_label (client : Option String) : String :=
  match client with
  | some c => if c = "" then ("auto") else c
  | none => "auto"

/-- The environment/default branch of `resolve_effective_cookies_browser`:
`env_value.strip() if env_value and env_value.strip() else DEFAULT`. -/
def cookies_env_default (env : Env) : String :=
  match env.yt_cookies_from_browser with
  | some e => if e ≠ "" ∧ py_strip e ≠ "" then py_strip e else DEFAULT_COOKIES_BROWSER
  | none => DEFAULT_COOKIES_BROWSER

/-- `resolve_effective_cookies_browser` from the source. -/
def resolve_effective_cookies_browser (env : Env) (cli_value : Option String) : Option String :=
  let raw :=
    match cli_value with
    | some s => if py_strip s ≠ "" then py_strip s else cookies_env_default env
    | none => cookies_env_default env
  if py_lower raw = "none" ∨ py_lower raw = "off" ∨ py_lower raw = "false" then none
  else some raw

/-- Whether the caller supplied a non-blank cookies-browser CLI value
(Python `cli_value is not None and cli_value.strip()`). -/
def cli_supplied (cli_value : Option String) : Bool :=
  match cli_value with
  | some s => py_strip s != ""
  | none => false

/-- `resolve_effective_cookies_browsers` from the source. -/
def resolve_effective_cookies_browsers (env : Env) (cli_value : Option String) : List String :=
  match resolve_effective_cookies_browser env cli_value with
  | none => []
  | some browser =>
    let base := [browser]
    if cli_supplied cli_value then base
    else
      COOKIE_BROWSER_FALLBACKS.foldl
        (fun acc candidate => if candidate ∈ acc then acc else acc ++ [candidate]) base

/-- One planned attempt: `(client, auth_context, browser)` tuple of the
source. -/
structure Attempt where
  client : Option String
  auth_context : String
  browser : Option String
deriving DecidableEq, Repr

/-- `build_attempt_plan` from the source: two append loops, unauthenticated
attempts first, then one pass per cookie browser. -/
def build_attempt_plan (clients : List (Option String)) (cookie_browsers : List String) :
    List Attempt :=
  let attempts := clients.foldl (fun acc client => acc ++ [⟨client, "none", none⟩]) []
  cookie_browsers.foldl
    (fun acc browser =>
      clients.foldl (fun acc2 client => acc2 ++ [⟨client, s!"cookies:{browser}", some browser⟩]) acc)
    attempts

/-- `build_exact_format_selector` from the source. -/
def build_exact_format_selector (target_quality : Int) : String :=
  s!"bestvideo[height={target_quality}]+bestaudio/best[height={target_quality}]"

/-- `build_best_below_or_equal_selector` from the source. -/
def build_best_below_or_equal_selector (target_quality : Int) : String :=
  s!"bestvideo[height<={target_quality}]+bestaudio/best[height<={target_quality}]"

/-- One quality-selection mode: the `(mode_name, format_selector,
requires_exact_match)` tuple of the source. -/
structure QualityMode where
  name : String
  selector : String
  requires_exact_match : Bool
deriving DecidableEq, Repr

/-- The `quality_modes` list built in `download_youtube_mp4_720p`
(lines 402-417): the exact mode is prepended exactly when the policy is
`strict`, and the relaxed mode is always present last. -/
def quality_modes (effective_quality_policy : String) (effective_target_quality : Int) :
    List QualityMode :=
  (if effective_quality_policy = "strict" then
    [⟨"exact_target", build_exact_format_selector effective_target_quality, true⟩]
  else []) ++
  [⟨"best_below_or_equal_target", build_best_below_or_equal_selector effective_target_quality,
    false⟩]

/-- `remove_file_if_exists` from the source, over the model of the output
directory as the list of file paths present: `unlink(missing_ok=True)`
removes the path when present and is a no-op otherwise. -/
def remove_file_if_exists (path : String) (files : List String) : List String :=
  files.filter (fun f => f != path)

/-- What the backend (`ydl.extract_info` plus the metadata/path recovery
helpers) yields for one attempt: either a `DownloadError` with its message,
or result metadata.  `height` abstracts
`extract_selected_height(info) or probe_height_with_ffprobe(path)`,
`format_id` abstracts `extract_selected_format_id(info)`, and `path`
abstracts `resolve_downloaded_file_path(...)`. -/
inductive BackendResult where
  | failure (message : String)
  | metadata (height : Option Int) (format_id : Option String) (path : String)
deriving DecidableEq, Repr

/-- `DownloadOutcome` from the source. -/
structure DownloadOutcome where
  path : String
  client : String
  auth_context : String
  height : Option Int
  format_id : Option String
  target_quality : Int
  quality_policy : String
  fallback : Bool
  fallback_reason : Option String
deriving DecidableEq, Repr

/-- Result of executing one attempt body (the `try`/`except DownloadError`
block of `download_youtube_mp4_720p`): quality rejection deletes the named
artifact and continues, a retryable error continues, a non-retryable error
aborts the search with the original message, success returns. -/
inductive AttemptOutcome where
  | success (outcome : DownloadOutcome)
  | qualityRejected (removed_path : String) (reason : String)
  | retryableError (reason : String)
  | fatalError (message : String)
deriving DecidableEq, Repr

/-- Python `height is not None and height > target`. -/
def exceeds_target (height : Option Int) (target : Int) : Bool :=
  match height with
  | some h => decide (h > target)
  | none => false

/-- The body of one attempt in `download_youtube_mp4_720p` (lines 482-568):
quality gate, fallback computation, outcome construction and error
classification, translated branch by branch from the source. -/
def execute_attempt (policy : String) (target : Int) (requires_exact_match : Bool)
    (mode_name : String) (att : Attempt) (res : BackendResult) : AttemptOutcome :=
  let current_client := client_label att.client
  let auth := att.auth_context
  match res with
  | BackendResult.failure exc_message =>
    let message := clean_error_message exc_message
    let reason := s!"client={current_client}, auth={auth}, mode={mode_name}: {message}"
    if is_retryable_download_error message then AttemptOutcome.retryableError reason
    else AttemptOutcome.fatalError exc_message
  | BackendResult.metadata height format_id path =>
    if requires_exact_match = true ∧ height ≠ some target then
      let actual_height := match height with
        | none => "unknown"
        | some h => toString h
      AttemptOutcome.qualityRejected path
        (s!"client={current_client}, auth={auth}, mode={mode_name}: actual_quality={actual_height} does_not_match_target={target}")
    else if requires_exact_match = false ∧ exceeds_target height target = true then
      let actual_height := match height with
        | none => "unknown"
        | some h => toString h
      AttemptOutcome.qualityRejected path
        (s!"client={current_client}, auth={auth}, mode={mode_name}: actual_quality={actual_height} above_target={target}")
    else
      let fb : Bool × Option String :=
        match height with
        | some h =>
          if h < target then (true, some (s!"requested={target}, actual={h}"))
          else if requires_exact_match = false ∧ policy = "strict" then
            (true, some (s!"exact_target_unavailable, requested={target}"))
          else (false, none)
        | none =>
          if requires_exact_match = false ∧ policy = "strict" then
            (true, some (s!"exact_target_unavailable, requested={target}"))
          else (false, none)
      AttemptOutcome.success
        ⟨path, current_client, att.auth_context, height, format_id, target, policy,
          fb.1, fb.2⟩

/-- Result of the inner attempt loop for one quality mode: success
(returning the outcome, with the file state at that point), an immediate
abort on a non-retryable error, or exhaustion (with the accumulated
`attempt_reasons` and file state, so the outer loop can continue). -/
inductive InnerResult where
  | success (outcome : DownloadOutcome) (files : List String)
  | fatal (message : String)
  | exhausted (reasons : List String) (files : List String)
deriving DecidableEq, Repr

/-- The inner `for attempt in attempts` loop of `download_youtube_mp4_720p`
for a fixed quality mode.  `backend` maps (format selector, attempt) to the
backend's behaviour; `reasons` is the `attempt_reasons` accumulator and
`files` the output-directory state. -/
def run_mode (policy : String) (target : Int) (backend : String → Attempt → BackendResult)
    (mode : QualityMode) :
    List Attempt → List String → List String → InnerResult
  | [], reasons, files => InnerResult.exhausted reasons files
  | att :: rest, reasons, files =>
    match execute_attempt policy target mode.requires_exact_match mode.name att
        (backend mode.selector att) with
    | AttemptOutcome.success o => InnerResult.success o files
    | AttemptOutcome.qualityRejected path reason =>
      run_mode policy target backend mode rest (reasons ++ [reason])
        (remove_file_if_exists path files)
    | AttemptOutcome.retryableError reason =>
      run_mode policy target backend mode rest (reasons ++ [reason]) files
    | AttemptOutcome.fatalError msg => InnerResult.fatal msg

/-- Result of the whole nested search: success, an abort on a non-retryable
error, or exhaustion of every mode × attempt combination (the final
`SystemExit`). -/
inductive SearchResult where
  | success (outcome : DownloadOutcome) (files : List String)
  | fatal (message : String)
  | exhausted (reasons : List String) (files : List String)
deriving DecidableEq, Repr

/-- The outer `for quality mode` loop of `download_youtube_mp4_720p`:
each mode runs the full attempt list, threading `attempt_reasons` and the
file state; a success or a non-retryable error ends the search at once. -/
def run_modes (policy : String) (target : Int) (backend : String → Attempt → BackendResult) :
    List QualityMode → List Attempt → List String → List String → SearchResult
  | [], _, reasons, files => SearchResult.exhausted reasons files
  | m :: ms, attempts, reasons, files =>
    match run_mode policy target backend m attempts reasons files with
    | InnerResult.success o fs => SearchResult.success o fs
    | InnerResult.fatal msg => SearchResult.fatal msg
    | InnerResult.exhausted rs fs => run_modes policy target backend ms attempts rs fs

/-- The seven retryable-failure categories named by the specification, as
marker strings (the source's `retryable_markers` additionally lists
`cookiesfrombrowser`, which the `cookie` marker subsumes). -/
def spec_retryable_markers : List String :=
  ["requested format is not available",
   "only images are available",
   "challenge solving failed",
   "this video is drm protected",
   "no video formats found",
   "http error 403",
   "cookie"]

section Lemmas

lemma foldl_append_singleton {α β : Type} (f : α → β) :
    ∀ (l : List α) (acc : List β), l.foldl (fun a c => a ++ [f c]) acc = acc ++ l.map f := by
  intro l
  induction l with
  | nil => intro acc; simp
  | cons x xs ih => intro acc; simp [ih]

lemma foldl_append_join {α β γ : Type} (f : α → β → γ) (l2 : List β) :
    ∀ (l : List α) (acc : List γ),
      l.foldl (fun a x => l2.foldl (fun a2 y => a2 ++ [f x y]) a) acc
        = acc ++ (l.map (fun x => l2.map (f x))).flatten := by
  intro l
  induction l with
  | nil => intro acc; simp
  | cons x xs ih =>
    intro acc
    simp only [List.foldl_cons, List.map_cons, List.flatten_cons]
    rw [foldl_append_singleton (f x) l2 acc, ih]
    simp

lemma attempt_plan_eq (clients : List (Option String)) (cookie_browsers : List String) :
    build_attempt_plan clients cookie_browsers
      = clients.map (fun c => ⟨c, "none", none⟩)
        ++ (cookie_browsers.map (fun b =>
              clients.map (fun c => (⟨c, s!"cookies:{b}", some b⟩ : Attempt)))).flatten := by
  unfold build_attempt_plan
  rw [foldl_append_singleton, foldl_append_join]
  simp

lemma substring_trans {a b c : List Char} (h1 : a <:+: b) (h2 : b <:+: c) : a <:+: c := by
  obtain ⟨s, t, rfl⟩ := h1
  obtain ⟨u, v, rfl⟩ := h2
  exact ⟨u ++ s, t ++ v, by simp⟩

end Lemmas

/-- Claim C2: `build_attempt_plan` emits one unauthenticated entry per
client in client order first, then, for each cookie browser in order, one
entry per client authenticated with that browser; the plan has exactly
`|clients| + |clients|*|cookieBrowsers|` entries; for two clients and two
browsers the order is exactly
`[(c1,NoAuth),(c2,NoAuth),(c1,b1),(c2,b1),(c1,b2),(c2,b2)]`, and an empty
browser list yields only unauthenticated entries, one per client. -/
theorem attempt_plan_contract :
    (∀ (clients : List (Option String)) (bs : List String),
      build_attempt_plan clients bs
        = clients.map (fun c => ⟨c, "none", none⟩)
          ++ (bs.map (fun b =>
                clients.map (fun c => (⟨c, s!"cookies:{b}", some b⟩ : Attempt)))).flatten)
    ∧ (∀ (clients : List (Option String)) (bs : List String),
      (build_attempt_plan clients bs).length
        = clients.length + clients.length * bs.length)
    ∧ (∀ clients : List (Option String),
      build_attempt_plan clients [] = clients.map (fun c => ⟨c, "none", none⟩))
    ∧ (∀ (c1 c2 : Option String) (b1 b2 : String),
      build_attempt_plan [c1, c2] [b1, b2]
        = [⟨c1, "none", none⟩, ⟨c2, "none", none⟩,
           ⟨c1, s!"cookies:{b1}", some b1⟩, ⟨c2, s!"cookies:{b1}", some b1⟩,
           ⟨c1, s!"cookies:{b2}", some b2⟩, ⟨c2, s!"cookies:{b2}", some b2⟩]) := by
  refine ⟨attempt_plan_eq, ?_, ?_, ?_⟩
  · intro clients bs
    rw [attempt_plan_eq]
    have haux : ∀ bs2 : List String,
        ((bs2.map (fun b =>
          clients.map (fun c => (⟨c, s!"cookies:{b}", some b⟩ : Attempt)))).flatten).length
          = clients.length * bs2.length := by
      intro bs2
      induction bs2 with
      | nil => simp
      | cons b bs2 ih =>
        simp only [List.map_cons, List.flatten_cons, List.length_append, List.length_map, ih,
          List.length_cons, Nat.mul_succ]
        omega
    simp [haux]
  · intro clients
    rw [attempt_plan_eq]
    simp
  · intro c1 c2 b1 b2
    rw [attempt_plan_eq]
    simp

/-- Claim C5: the quality-mode sequence depends only on the policy —
`strict` yields exactly `[exact_target (requiresExactMatch=true),
best_below_or_equal_target (requiresExactMatch=false)]`, `best_effort`
yields only the latter, and a successfully resolved policy is always one of
those two strings. -/
theorem quality_mode_sequence :
    (∀ t : Int, quality_modes ("strict") t
      = [⟨"exact_target", build_exact_format_selector t, true⟩,
         ⟨"best_below_or_equal_target", build_best_below_or_equal_selector t, false⟩])
    ∧ (∀ t : Int, quality_modes ("best_effort") t
      = [⟨"best_below_or_equal_target", build_best_below_or_equal_selector t, false⟩])
    ∧ (∀ (env : Env) (cli : Option String) (p : String),
      resolve_quality_policy env cli = Except.ok p → p = "strict" ∨ p = "best_effort") := by
  refine ⟨?_, ?_, ?_⟩
  · intro t; rfl
  · intro t; rfl
  · intro env cli p h
    simp only [resolve_quality_policy] at h
    split at h
    · rename_i hcond
      obtain rfl : _ = p := Except.ok.inj h
      exact hcond
    · exact absurd h (by simp)

/-- Witness for C5 at the default environment: resolution with no input
yields the policy string `strict`. -/
theorem quality_mode_sequence_witness :
    "strict" = "strict" ∨ "strict" = "best_effort" :=
  quality_mode_sequence.2.2 ⟨none, none, none, none⟩ none ("strict") (by rfl)

/-- Counterexample for C8: the client enumerator does not deduplicate; the
explicitly supplied list `["web", " web "]` resolves to two identical
entries. -/
theorem clients_not_deduplicated :
    resolve_effective_clients (some ["web", " web "])
      = Except.ok [some ("web"), some ("web")]
    ∧ ¬ ([some ("web"), some ("web")] : List (Option String)).Nodup := by
  exact ⟨by rfl, by simp⟩

lemma cleaned_eq_strip_filter (l : List String) :
    l.filterMap (fun c => if py_strip c = "" then none else some (py_strip c))
      = (l.map py_strip).filter (fun s => s != "") := by
  induction l with
  | nil => rfl
  | cons c cs ih =>
    by_cases hc : py_strip c = ""
    · simp [List.filterMap_cons, List.filter_cons, hc, ih]
    · simp [List.filterMap_cons, List.filter_cons, hc, ih]

/-- Claim C8 (amended): for an explicitly supplied non-empty client list
with at least one non-blank entry, the result is exactly the stripped
entries with the blanks dropped, wrapped in `some` — so entries come back
non-empty and trimmed, in input order, with duplicates preserved, not
removed; resolution fails when nothing remains after trimming and dropping
blank entries; when no list — or an empty list, which Python treats the
same — is supplied, the result is exactly `[None]`. -/
theorem clients_enumerator_amended :
    (resolve_effective_clients none = Except.ok [none])
    ∧ (resolve_effective_clients (some []) = Except.ok [none])
    ∧ (∀ l : List String, l ≠ [] →
        (l.map py_strip).filter (fun s => s != "") ≠ [] →
        resolve_effective_clients (some l)
          = Except.ok (((l.map py_strip).filter (fun s => s != "")).map some))
    ∧ (∀ (l : List String) (cs : List (Option String)),
        resolve_effective_clients (some l) = Except.ok cs → l ≠ [] →
        ∀ c ∈ cs, ∃ s, s ∈ l ∧ c = some (py_strip s) ∧ py_strip s ≠ "")
    ∧ (∀ l : List String, l ≠ [] → (∀ s ∈ l, py_strip s = "") →
        resolve_effective_clients (some l)
          = Except.error ("player clients list cannot be empty")) := by
  refine ⟨rfl, rfl, ?_, ?_, ?_⟩
  · intro l hne hfne
    simp only [resolve_effective_clients]
    rw [if_neg hne, cleaned_eq_strip_filter, if_neg hfne]
  · intro l cs h hne c hc
    simp only [resolve_effective_clients] at h
    rw [if_neg hne] at h
    split at h
    · exact absurd h (by simp)
    · obtain rfl : _ = cs := Except.ok.inj h
      simp only [List.mem_map, List.mem_filterMap] at hc
      obtain ⟨s', ⟨s, hs, hfs⟩, rfl⟩ := hc
      by_cases hb : py_strip s = ""
      · rw [if_pos hb] at hfs; exact absurd hfs (by simp)
      · rw [if_neg hb] at hfs
        obtain rfl : _ = s' := Option.some.inj hfs
        exact ⟨s, hs, rfl, hb⟩
  · intro l hne hall
    simp only [resolve_effective_clients]
    rw [if_neg hne]
    have hclean : l.filterMap (fun c => if py_strip c = "" then none else some (py_strip c)) = [] := by
      rw [List.filterMap_eq_nil_iff]
      intro a ha
      rw [if_pos (hall a ha)]
    rw [hclean]
    rfl

/-- Witness for C8 (amended): the supplied list `[" web ", "", "web"]`
resolves to exactly the stripped non-blank entries, in order, with the
duplicate kept. -/
theorem clients_enumerator_amended_witness :
    resolve_effective_clients (some [" web ", "", "web"])
      = Except.ok [some ("web"), some ("web")] :=
  (clients_enumerator_amended.2.2.1 [" web ", "", "web"] (by decide) (by decide)).trans
    (by rfl)

section CookieLemmas

lemma py_strip_empty : py_strip ("") = "" := rfl

lemma cookies_env_default_none (env : Env) (he : env.yt_cookies_from_browser = none) :
    cookies_env_default env = DEFAULT_COOKIES_BROWSER := by
  simp [cookies_env_default, he]

lemma cookies_env_default_some (env : Env) (e : String)
    (he : env.yt_cookies_from_browser = some e) (hne : py_strip e ≠ "") :
    cookies_env_default env = py_strip e := by
  have he' : e ≠ "" := fun h0 => hne (by rw [h0]; rfl)
  simp [cookies_env_default, he, he', hne]

lemma cookies_env_default_blank (env : Env) (e : String)
    (he : env.yt_cookies_from_browser = some e) (hbl : py_strip e = "") :
    cookies_env_default env = DEFAULT_COOKIES_BROWSER := by
  simp [cookies_env_default, he, hbl]

lemma fallback_fold (p : String) :
    COOKIE_BROWSER_FALLBACKS.foldl
        (fun acc candidate => if candidate ∈ acc then acc else acc ++ [candidate]) [p]
      = p :: COOKIE_BROWSER_FALLBACKS.filter (fun c => c != p) := by
  by_cases h1 : p = "safari"
  · subst h1; decide
  · by_cases h2 : p = "firefox"
    · subst h2; decide
    · have h1' : ¬ ("safari" = p) := fun h => h1 h.symm
      have h2' : ¬ ("firefox" = p) := fun h => h2 h.symm
      simp [COOKIE_BROWSER_FALLBACKS, h1', h2']

lemma cookies_browser_not_supplied (env : Env) (cli : Option String)
    (hcli : cli_supplied cli = false) :
    resolve_effective_cookies_browser env cli
      = (if py_lower (cookies_env_default env) = "none"
            ∨ py_lower (cookies_env_default env) = "off"
            ∨ py_lower (cookies_env_default env) = "false"
         then none else some (cookies_env_default env)) := by
  cases cli with
  | none => rfl
  | some s =>
    have hs : ¬ (py_strip s ≠ "") := by
      simp only [cli_supplied, bne_eq_false_iff_eq] at hcli
      simp [hcli]
    simp only [resolve_effective_cookies_browser]
    rw [if_neg hs]

end CookieLemmas

/-- Claim C9: a caller-supplied non-blank browser name resolves to exactly
that (trimmed) name with no fallback cascading, unless it matches the
disabled sentinel `none|off|false` case-insensitively, which yields the
empty list; with no caller value the list starts with the environment
default (or the hardcoded primary browser `chrome`) followed by each fixed
fallback browser not already present, in order. -/
theorem cookie_browser_resolution :
    (∀ (env : Env) (s : String), py_strip s ≠ "" →
      py_lower (py_strip s) ≠ "none" → py_lower (py_strip s) ≠ "off" →
      py_lower (py_strip s) ≠ "false" →
      resolve_effective_cookies_browsers env (some s) = [py_strip s])
    ∧ (∀ (env : Env) (s : String), py_strip s ≠ "" →
      (py_lower (py_strip s) = "none" ∨ py_lower (py_strip s) = "off" ∨
        py_lower (py_strip s) = "false") →
      resolve_effective_cookies_browsers env (some s) = [])
    ∧ (∀ (env : Env) (cli : Option String), cli_supplied cli = false →
      py_lower (cookies_env_default env) ≠ "none" →
      py_lower (cookies_env_default env) ≠ "off" →
      py_lower (cookies_env_default env) ≠ "false" →
      resolve_effective_cookies_browsers env cli
        = cookies_env_default env
            :: COOKIE_BROWSER_FALLBACKS.filter (fun c => c != cookies_env_default env))
    ∧ (∀ env : Env, env.yt_cookies_from_browser = none →
        cookies_env_default env = DEFAULT_COOKIES_BROWSER)
    ∧ (∀ (env : Env) (e : String), env.yt_cookies_from_browser = some e →
        py_strip e ≠ "" → cookies_env_default env = py_strip e)
    ∧ (∀ (env : Env) (e : String), env.yt_cookies_from_browser = some e →
        py_strip e = "" → cookies_env_default env = DEFAULT_COOKIES_BROWSER) := by
  refine ⟨?_, ?_, ?_, cookies_env_default_none, cookies_env_default_some,
    cookies_env_default_blank⟩
  · intro env s hs h1 h2 h3
    have hbrowser : resolve_effective_cookies_browser env (some s) = some (py_strip s) := by
      simp only [resolve_effective_cookies_browser]
      rw [if_pos hs, if_neg (by push_neg; exact ⟨h1, h2, h3⟩)]
    have hcs : cli_supplied (some s) = true := by
      simp [cli_supplied, hs]
    simp [resolve_effective_cookies_browsers, hbrowser, hcs]
  · intro env s hs hsent
    have hbrowser : resolve_effective_cookies_browser env (some s) = none := by
      simp only [resolve_effective_cookies_browser]
      rw [if_pos hs, if_pos hsent]
    simp [resolve_effective_cookies_browsers, hbrowser]
  · intro env cli hcli h1 h2 h3
    have hbrowser : resolve_effective_cookies_browser env cli
        = some (cookies_env_default env) := by
      rw [cookies_browser_not_supplied env cli hcli,
        if_neg (by push_neg; exact ⟨h1, h2, h3⟩)]
    simp only [resolve_effective_cookies_browsers, hbrowser, hcli]
    rw [if_neg (by simp)]
    exact fallback_fold (cookies_env_default env)

/-- Witness for C9: the explicitly supplied browser `safari` resolves to
exactly itself, with no fallbacks appended. -/
theorem cookie_browser_resolution_witness :
    resolve_effective_cookies_browsers ⟨none, none, none, none⟩ (some ("safari"))
      = [py_strip ("safari")] :=
  cookie_browser_resolution.1 ⟨none, none, none, none⟩ ("safari") (by decide) (by decide)
    (by decide) (by decide)

/-- Claim C10: when the caller omits the browser argument and the trimmed
environment value matches the disabled sentinel `none|off|false`
case-insensitively, cookie-browser resolution yields the empty list, and
the resulting attempt plan contains no cookie-authenticated entry. -/
theorem env_cookie_sentinel_disables_auth :
    ∀ (env : Env) (e : String) (clients : List (Option String)),
      env.yt_cookies_from_browser = some e → py_strip e ≠ "" →
      (py_lower (py_strip e) = "none" ∨ py_lower (py_strip e) = "off" ∨
        py_lower (py_strip e) = "false") →
      resolve_effective_cookies_browsers env none = []
      ∧ ∀ a ∈ build_attempt_plan clients (resolve_effective_cookies_browsers env none),
          a.auth_context = "none" ∧ a.browser = none := by
  intro env e clients he hne hsent
  have hdef : cookies_env_default env = py_strip e := cookies_env_default_some env e he hne
  have hb : resolve_effective_cookies_browser env none = none := by
    simp only [resolve_effective_cookies_browser, hdef]
    rw [if_pos hsent]
  have hempty : resolve_effective_cookies_browsers env none = [] := by
    simp [resolve_effective_cookies_browsers, hb]
  refine ⟨hempty, ?_⟩
  rw [hempty]
  intro a ha
  rw [attempt_plan_eq] at ha
  simp only [List.map_nil, List.flatten_nil, List.append_nil, List.mem_map] at ha
  obtain ⟨c, _, rfl⟩ := ha
  exact ⟨rfl, rfl⟩

/-- Witness for C10: with `YT_COOKIES_FROM_BROWSER = " NONE "` and no
caller value, no cookie browser is resolved and the plan over one client is
purely unauthenticated. -/
theorem env_cookie_sentinel_disables_auth_witness :
    resolve_effective_cookies_browsers ⟨none, none, none, some (" NONE ")⟩ none = []
    ∧ ((⟨some ("web"), ("none"), none⟩ : Attempt).auth_context = "none"
      ∧ (⟨some ("web"), ("none"), none⟩ : Attempt).browser = none) := by
  have H := env_cookie_sentinel_disables_auth ⟨none, none, none, some (" NONE ")⟩ (" NONE ")
    [some ("web")] rfl (by decide) (by decide)
  exact ⟨H.1, H.2 ⟨some ("web"), ("none"), none⟩ (by decide)⟩

section BoundsLemmas

lemma normalize_ok_bounds (v : Int) (l : String) (n : Int)
    (h : normalize_target_quality v l = Except.ok n) :
    MIN_TARGET_QUALITY ≤ n ∧ n ≤ MAX_TARGET_QUALITY := by
  simp only [normalize_target_quality] at h
  split at h
  · exact absurd h (by simp)
  · split at h
    · exact absurd h (by simp)
    · obtain rfl : _ = n := Except.ok.inj h
      omega

lemma parse_ok_bounds (v : Option String) (l : String) (n : Int)
    (h : parse_target_quality v l = Except.ok n) :
    MIN_TARGET_QUALITY ≤ n ∧ n ≤ MAX_TARGET_QUALITY := by
  cases v with
  | none =>
    obtain rfl : _ = n := Except.ok.inj h
    simp [MIN_TARGET_QUALITY, MAX_TARGET_QUALITY, DEFAULT_TARGET_QUALITY]
  | some s =>
    simp only [parse_target_quality] at h
    split at h
    · obtain rfl : _ = n := Except.ok.inj h
      simp [MIN_TARGET_QUALITY, MAX_TARGET_QUALITY, DEFAULT_TARGET_QUALITY]
    · split at h
      · exact absurd h (by simp)
      · split at h
        · exact absurd h (by simp)
        · split at h
          · exact absurd h (by simp)
          · obtain rfl : _ = n := Except.ok.inj h
            omega

end BoundsLemmas

/-- Claim C6: target-quality resolution precedence — explicit CLI target
over legacy CLI alias over `YT_TARGET_QUALITY` over `YT_MIN_HEIGHT` over
the default 720; a CLI value wins regardless of the environment, and with
no input at all the resolved height is 720 and the resolved policy is
`strict`. -/
theorem target_quality_precedence :
    (∀ (env : Env) (v : Int) (mh : Option Int),
      resolve_target_quality env (some v) mh = normalize_target_quality v ("target-quality"))
    ∧ (∀ (env : Env) (v : Int),
      resolve_target_quality env none (some v) = normalize_min_height v)
    ∧ (∀ (env : Env) (s : String), env.yt_target_quality = some s → s ≠ "" →
      py_strip s ≠ "" →
      resolve_target_quality env none none
        = parse_target_quality (some s) ("YT_TARGET_QUALITY"))
    ∧ (∀ env : Env, env.yt_target_quality = none →
      resolve_target_quality env none none = parse_min_height env.yt_min_height)
    ∧ (∀ (env : Env) (s : String), env.yt_target_quality = some s → py_strip s = "" →
      resolve_target_quality env none none = parse_min_height env.yt_min_height)
    ∧ (resolve_target_quality ⟨none, none, none, none⟩ none none = Except.ok 720
      ∧ resolve_quality_policy ⟨none, none, none, none⟩ none = Except.ok ("strict")) := by
  refine ⟨?_, ?_, ?_, ?_, ?_, ?_, ?_⟩
  · intro env v mh; rfl
  · intro env v; rfl
  · intro env s hset h1 h2
    simp only [resolve_target_quality, hset]
    rw [if_pos ⟨h1, h2⟩]
  · intro env hset
    simp only [resolve_target_quality, hset]
  · intro env s hset h2
    simp only [resolve_target_quality, hset]
    rw [if_neg (by simp [h2])]
  · rfl
  · rfl

/-- Witness for C6 at a concrete environment: with no CLI input,
`YT_TARGET_QUALITY=1080` decides the resolution. -/
theorem target_quality_precedence_witness :
    resolve_target_quality ⟨some ("1080"), none, none, none⟩ none none
      = parse_target_quality (some ("1080")) ("YT_TARGET_QUALITY") :=
  target_quality_precedence.2.2.1 ⟨some ("1080"), none, none, none⟩ ("1080") (by rfl)
    (by decide) (by decide)

/-- Claim C7: every numeric height source is validated against
`[144, 4320]` — an out-of-range integer or a non-integer string is a fatal
configuration error, and every successfully resolved target quality lies
within the bounds. -/
theorem target_quality_bounds :
    (∀ (v : Option String) (l : String) (n : Int),
      parse_target_quality v l = Except.ok n →
      MIN_TARGET_QUALITY ≤ n ∧ n ≤ MAX_TARGET_QUALITY)
    ∧ (∀ (s : String) (l : String) (p : Int), pyInt s = some p →
      (p < MIN_TARGET_QUALITY ∨ p > MAX_TARGET_QUALITY) →
      ∃ e, parse_target_quality (some s) l = Except.error e)
    ∧ (∀ (s : String) (l : String), py_strip s ≠ "" → pyInt s = none →
      ∃ e, parse_target_quality (some s) l = Except.error e)
    ∧ (∀ (v : Int) (l : String), (v < MIN_TARGET_QUALITY ∨ v > MAX_TARGET_QUALITY) →
      ∃ e, normalize_target_quality v l = Except.error e)
    ∧ (∀ (v : Int) (l : String) (n : Int), normalize_target_quality v l = Except.ok n →
      MIN_TARGET_QUALITY ≤ n ∧ n ≤ MAX_TARGET_QUALITY)
    ∧ (∀ (env : Env) (cli : Option Int) (mh : Option Int) (n : Int),
      resolve_target_quality env cli mh = Except.ok n →
      MIN_TARGET_QUALITY ≤ n ∧ n ≤ MAX_TARGET_QUALITY) := by
  refine ⟨parse_ok_bounds, ?_, ?_, ?_, normalize_ok_bounds, ?_⟩
  · intro s l p hp hrange
    have hs : ¬ (py_strip s = "") := by
      intro h0
      have : (py_strip s).data = [] := by rw [h0]
      simp [pyInt, this, digits_val] at hp
    simp only [parse_target_quality]
    rw [if_neg hs]
    simp only [hp]
    rcases hrange with hlt | hgt
    · rw [if_pos hlt]
      exact ⟨_, rfl⟩
    · have hnlt : ¬ (p < MIN_TARGET_QUALITY) := by
        simp only [MIN_TARGET_QUALITY]
        simp only [MAX_TARGET_QUALITY] at hgt
        omega
      rw [if_neg hnlt, if_pos hgt]
      exact ⟨_, rfl⟩
  · intro s l hs hp
    simp only [parse_target_quality]
    rw [if_neg hs]
    simp only [hp]
    exact ⟨_, rfl⟩
  · intro v l hrange
    simp only [normalize_target_quality]
    rcases hrange with hlt | hgt
    · rw [if_pos hlt]
      exact ⟨_, rfl⟩
    · have hnlt : ¬ (v < MIN_TARGET_QUALITY) := by
        simp only [MIN_TARGET_QUALITY]
        simp only [MAX_TARGET_QUALITY] at hgt
        omega
      rw [if_neg hnlt, if_pos hgt]
      exact ⟨_, rfl⟩
  · intro env cli mh n h
    cases cli with
    | some v => exact normalize_ok_bounds v _ n h
    | none =>
      cases mh with
      | some v => exact normalize_ok_bounds v _ n h
      | none =>
        cases hset : env.yt_target_quality with
        | none =>
          simp only [resolve_target_quality, hset, parse_min_height] at h
          exact parse_ok_bounds _ _ n h
        | some s =>
          simp only [resolve_target_quality, hset, parse_min_height] at h
          split at h
          · exact parse_ok_bounds _ _ n h
          · exact parse_ok_bounds _ _ n h

/-- Witness for C7: the out-of-range height string `"100"` is rejected as a
configuration error. -/
theorem target_quality_bounds_witness :
    ∃ e, parse_target_quality (some ("100")) ("h") = Except.error e :=
  target_quality_bounds.2.1 ("100") ("h") 100 (by decide) (by decide)

section ExecutorLemmas

lemma not_mem_remove_file (path : String) (files : List String) :
    path ∉ remove_file_if_exists path files := by
  simp [remove_file_if_exists]

end ExecutorLemmas

/-- Claim C1: quality gate of the attempt executor.  When the backend
returns metadata, an exact-match mode rejects any achieved height that
differs from the target or is unknown, and a relaxed mode rejects a known
height strictly above the target; both rejections delete the produced
artifact and continue with the next attempt.  In every other case the
attempt is accepted and the whole search terminates successfully with a
`DownloadOutcome`. -/
theorem quality_gate
    (policy : String) (target : Int) (backend : String → Attempt → BackendResult)
    (mode : QualityMode) (att : Attempt) (rest : List Attempt)
    (reasons files : List String) (h : Option Int) (fid : Option String) (path : String)
    (hb : backend mode.selector att = BackendResult.metadata h fid path) :
    (mode.requires_exact_match = true → h ≠ some target →
      ∃ r, execute_attempt policy target mode.requires_exact_match mode.name att
            (BackendResult.metadata h fid path)
          = AttemptOutcome.qualityRejected path r
        ∧ run_mode policy target backend mode (att :: rest) reasons files
          = run_mode policy target backend mode rest (reasons ++ [r])
              (remove_file_if_exists path files)
        ∧ path ∉ remove_file_if_exists path files)
    ∧ (mode.requires_exact_match = false → ∀ hh, h = some hh → hh > target →
      ∃ r, execute_attempt policy target mode.requires_exact_match mode.name att
            (BackendResult.metadata h fid path)
          = AttemptOutcome.qualityRejected path r
        ∧ run_mode policy target backend mode (att :: rest) reasons files
          = run_mode policy target backend mode rest (reasons ++ [r])
              (remove_file_if_exists path files)
        ∧ path ∉ remove_file_if_exists path files)
    ∧ ((mode.requires_exact_match = true → h = some target) →
       (mode.requires_exact_match = false → ∀ hh, h = some hh → hh ≤ target) →
      ∃ o, execute_attempt policy target mode.requires_exact_match mode.name att
            (BackendResult.metadata h fid path)
          = AttemptOutcome.success o
        ∧ run_mode policy target backend mode (att :: rest) reasons files
          = InnerResult.success o files
        ∧ ∀ ms, run_modes policy target backend (mode :: ms) (att :: rest) reasons files
          = SearchResult.success o files) := by
  refine ⟨?_, ?_, ?_⟩
  · intro hexact hne
    obtain ⟨r, hE⟩ : ∃ r, execute_attempt policy target mode.requires_exact_match mode.name att
        (BackendResult.metadata h fid path) = AttemptOutcome.qualityRejected path r := by
      simp only [execute_attempt]
      rw [if_pos ⟨hexact, hne⟩]
      exact ⟨_, rfl⟩
    refine ⟨r, hE, ?_, not_mem_remove_file path files⟩
    simp only [run_mode]
    rw [hb, hE]
  · intro hrelax hh hsome hgt
    have hc1 : ¬ (mode.requires_exact_match = true ∧ h ≠ some target) := by
      intro hcc
      rw [hrelax] at hcc
      exact absurd hcc.1 (by simp)
    have hc2 : mode.requires_exact_match = false ∧ exceeds_target h target = true := by
      refine ⟨hrelax, ?_⟩
      rw [hsome]
      simp [exceeds_target, hgt]
    obtain ⟨r, hE⟩ : ∃ r, execute_attempt policy target mode.requires_exact_match mode.name att
        (BackendResult.metadata h fid path) = AttemptOutcome.qualityRejected path r := by
      simp only [execute_attempt]
      rw [if_neg hc1, if_pos hc2]
      exact ⟨_, rfl⟩
    refine ⟨r, hE, ?_, not_mem_remove_file path files⟩
    simp only [run_mode]
    rw [hb, hE]
  · intro hA hB
    have hc1 : ¬ (mode.requires_exact_match = true ∧ h ≠ some target) :=
      fun hcc => hcc.2 (hA hcc.1)
    have hc2 : ¬ (mode.requires_exact_match = false ∧ exceeds_target h target = true) := by
      rintro ⟨hx, hy⟩
      cases hhh : h with
      | none =>
        rw [hhh] at hy
        simp [exceeds_target] at hy
      | some hh =>
        rw [hhh] at hy
        simp only [exceeds_target, decide_eq_true_eq] at hy
        exact absurd (hB hx hh hhh) (by omega)
    obtain ⟨o, hE⟩ : ∃ o, execute_attempt policy target mode.requires_exact_match mode.name att
        (BackendResult.metadata h fid path) = AttemptOutcome.success o := by
      simp only [execute_attempt]
      rw [if_neg hc1, if_neg hc2]
      exact ⟨_, rfl⟩
    have hrm : run_mode policy target backend mode (att :: rest) reasons files
        = InnerResult.success o files := by
      simp only [run_mode]
      rw [hb, hE]
    refine ⟨o, hE, hrm, ?_⟩
    intro ms
    simp only [run_modes]
    rw [hrm]

/-- Witness for C1: an exact-target mode rejects an achieved height of 480
against target 720, deletes the artifact, and the inner loop moves on. -/
theorem quality_gate_witness :
    ∃ r, execute_attempt ("strict") 720 true ("exact_target") ⟨none, ("none"), none⟩
          (BackendResult.metadata (some 480) none ("p.mp4"))
        = AttemptOutcome.qualityRejected ("p.mp4") r
      ∧ run_mode ("strict") 720 (fun _ _ => BackendResult.metadata (some 480) none ("p.mp4"))
          ⟨"exact_target", "sel", true⟩ [⟨none, ("none"), none⟩] [] [("p.mp4")]
        = run_mode ("strict") 720 (fun _ _ => BackendResult.metadata (some 480) none ("p.mp4"))
          ⟨"exact_target", "sel", true⟩ [] ([] ++ [r]) (remove_file_if_exists ("p.mp4") [("p.mp4")])
      ∧ ("p.mp4") ∉ remove_file_if_exists ("p.mp4") [("p.mp4")] :=
  (quality_gate ("strict") 720 (fun _ _ => BackendResult.metadata (some 480) none ("p.mp4"))
      ⟨"exact_target", "sel", true⟩ ⟨none, ("none"), none⟩ [] [] [("p.mp4")] (some 480) none
      ("p.mp4") rfl).1 rfl (by decide)

/-- Claim C3: backend download failures are classified against the fixed
marker set — format unavailable, image-only stream, anti-bot challenge
failure, DRM-protected, no formats found, HTTP 403, cookie-related — by
substring match on the lowercased message; a match is retryable and the
search continues with the next attempt, while a non-match aborts the whole
search immediately, preserving the original error. -/
theorem error_classification :
    (∀ m : String, is_retryable_download_error m = true ↔
      ∃ marker ∈ spec_retryable_markers, marker.data <:+: (py_lower m).data)
    ∧ (∀ (policy : String) (target : Int) (backend : String → Attempt → BackendResult)
        (mode : QualityMode) (att : Attempt) (rest : List Attempt)
        (reasons files : List String) (msg : String),
      backend mode.selector att = BackendResult.failure msg →
      is_retryable_download_error (clean_error_message msg) = true →
      ∃ r, execute_attempt policy target mode.requires_exact_match mode.name att
            (BackendResult.failure msg) = AttemptOutcome.retryableError r
        ∧ run_mode policy target backend mode (att :: rest) reasons files
          = run_mode policy target backend mode rest (reasons ++ [r]) files)
    ∧ (∀ (policy : String) (target : Int) (backend : String → Attempt → BackendResult)
        (mode : QualityMode) (att : Attempt) (rest : List Attempt)
        (reasons files : List String) (msg : String),
      backend mode.selector att = BackendResult.failure msg →
      is_retryable_download_error (clean_error_message msg) = false →
      execute_attempt policy target mode.requires_exact_match mode.name att
          (BackendResult.failure msg) = AttemptOutcome.fatalError msg
        ∧ run_mode policy target backend mode (att :: rest) reasons files
          = InnerResult.fatal msg
        ∧ ∀ ms, run_modes policy target backend (mode :: ms) (att :: rest) reasons files
          = SearchResult.fatal msg) := by
  refine ⟨?_, ?_, ?_⟩
  · intro m
    simp only [is_retryable_download_error, List.any_eq_true, decide_eq_true_eq]
    constructor
    · rintro ⟨marker, hmem, hsub⟩
      simp only [retryable_markers, List.mem_cons, List.not_mem_nil, or_false] at hmem
      rcases hmem with rfl | rfl | rfl | rfl | rfl | rfl | rfl | rfl
      · exact ⟨_, by decide, hsub⟩
      · exact ⟨_, by decide, hsub⟩
      · exact ⟨_, by decide, hsub⟩
      · exact ⟨_, by decide, hsub⟩
      · exact ⟨_, by decide, hsub⟩
      · exact ⟨_, by decide, hsub⟩
      · exact ⟨"cookie", by decide, substring_trans (by decide) hsub⟩
      · exact ⟨_, by decide, hsub⟩
    · rintro ⟨marker, hmem, hsub⟩
      simp only [spec_retryable_markers, List.mem_cons, List.not_mem_nil, or_false] at hmem
      rcases hmem with rfl | rfl | rfl | rfl | rfl | rfl | rfl <;>
        exact ⟨_, by decide, hsub⟩
  · intro policy target backend mode att rest reasons files msg hb hr
    obtain ⟨r, hE⟩ : ∃ r, execute_attempt policy target mode.requires_exact_match mode.name att
        (BackendResult.failure msg) = AttemptOutcome.retryableError r := by
      simp only [execute_attempt]
      rw [if_pos hr]
      exact ⟨_, rfl⟩
    refine ⟨r, hE, ?_⟩
    simp only [run_mode]
    rw [hb, hE]
  · intro policy target backend mode att rest reasons files msg hb hr
    have hE : execute_attempt policy target mode.requires_exact_match mode.name att
        (BackendResult.failure msg) = AttemptOutcome.fatalError msg := by
      simp only [execute_attempt]
      rw [if_neg (by simp [hr])]
    have hrm : run_mode policy target backend mode (att :: rest) reasons files
        = InnerResult.fatal msg := by
      simp only [run_mode]
      rw [hb, hE]
    refine ⟨hE, hrm, ?_⟩
    intro ms
    simp only [run_modes]
    rw [hrm]

/-- Witness for C3: the non-retryable message `Unsupported URL` aborts the
search at once, skipping the remaining attempt in the plan and the
remaining quality mode. -/
theorem error_classification_witness :
    execute_attempt ("strict") 720 true ("exact_target") ⟨none, ("none"), none⟩
        (BackendResult.failure ("Unsupported URL: xyz"))
      = AttemptOutcome.fatalError ("Unsupported URL: xyz")
    ∧ run_mode ("strict") 720 (fun _ _ => BackendResult.failure ("Unsupported URL: xyz"))
        ⟨"exact_target", "sel", true⟩
        [⟨none, ("none"), none⟩, ⟨some ("web"), ("none"), none⟩] [] []
      = InnerResult.fatal ("Unsupported URL: xyz")
    ∧ run_modes ("strict") 720
        (fun _ _ => BackendResult.failure ("Unsupported URL: xyz"))
        [⟨"exact_target", "sel", true⟩, ⟨"best_below_or_equal_target", "sel2", false⟩]
        [⟨none, ("none"), none⟩, ⟨some ("web"), ("none"), none⟩] [] []
      = SearchResult.fatal ("Unsupported URL: xyz") := by
  have H := error_classification.2.2 ("strict") 720
    (fun _ _ => BackendResult.failure ("Unsupported URL: xyz"))
    ⟨"exact_target", "sel", true⟩ ⟨none, ("none"), none⟩
    [⟨some ("web"), ("none"), none⟩] [] [] ("Unsupported URL: xyz") rfl (by decide)
  exact ⟨H.1, H.2.1, H.2.2 [⟨"best_below_or_equal_target", "sel2", false⟩]⟩

/-- Claim C4: an accepted outcome's `fallback` flag is `true` iff the
achieved height is known and strictly below the target, or the accepted
mode is the relaxed (non-exact) one while the overall policy is `strict`;
in all other cases — including an unknown achieved height under
`best_effort` — `fallback` is `false`. -/
theorem fallback_flag (policy : String) (target : Int) (req : Bool) (mode_name : String)
    (att : Attempt) (res : BackendResult) (o : DownloadOutcome)
    (hs : execute_attempt policy target req mode_name att res = AttemptOutcome.success o) :
    (o.fallback = true ↔
      ((∃ hh, o.height = some hh ∧ hh < target) ∨ (req = false ∧ policy = "strict"))) := by
  cases res with
  | failure msg =>
    simp only [execute_attempt] at hs
    split at hs <;> exact absurd hs (by simp)
  | metadata h fid path =>
    simp only [execute_attempt] at hs
    split at hs
    · exact absurd hs (by simp)
    · split at hs
      · exact absurd hs (by simp)
      · rw [AttemptOutcome.success.injEq] at hs
        subst hs
        cases h with
        | none =>
          by_cases hc : req = false ∧ policy = "strict"
          · simp [hc]
          · simp [hc]
        | some hh =>
          by_cases h1 : hh < target
          · simp [h1]
          · by_cases hc : req = false ∧ policy = "strict"
            · simp [h1, hc]
            · simp [h1, hc]

/-- Witness for C4: a relaxed-mode acceptance at height 480 under target
720 carries `fallback = true`, explained by the height deficit. -/
theorem fallback_flag_witness :
    ((⟨("p.mp4"), ("auto"), ("none"), some 480, some ("137"), 720, ("strict"), true,
        some ("requested=720, actual=480")⟩ : DownloadOutcome).fallback = true
      ↔ ((∃ hh, (⟨("p.mp4"), ("auto"), ("none"), some 480, some ("137"), 720, ("strict"),
          true, some ("requested=720, actual=480")⟩ : DownloadOutcome).height = some hh
            ∧ hh < 720)
        ∨ (false = false ∧ ("strict" : String) = "strict"))) :=
  fallback_flag ("strict") 720 false ("best_below_or_equal_target") ⟨none, ("none"), none⟩
    (BackendResult.metadata (some 480) (some ("137")) ("p.mp4")) _ (by decide)

end YoutubeDownloader
